import Mathlib

/-!
Verification development for the embeddable FAQ widget
(`static/faq-widget.js`).  The JavaScript is shallowly embedded: strings
are lists of characters (or Lean `String` where only equality matters),
JSON values are an inductive type, the retry loop of
`loadFaqsWithRetry` is a recursive function over a script of settled
fetch outcomes, and the widget instance (shadow DOM content plus the
mutable fields set in the constructor) is an explicit state record.
-/

namespace FaqWidget

/-- Characters treated as whitespace by the JavaScript string `trim`
operation (the subset relevant here: ASCII whitespace, NBSP and BOM). -/
def jsWhitespace (c : Char) : Bool :=
  c == ' ' || c == '\t' || c == '\n' || c == '\r' ||
  c == Char.ofNat 11 || c == Char.ofNat 12 ||
  c == Char.ofNat 0xA0 || c == Char.ofNat 0xFEFF

/-- JavaScript `String.prototype.trim` on a list of characters: remove
leading and trailing whitespace. -/
def jsTrim (s : List Char) : List Char :=
  List.rdropWhile jsWhitespace (List.dropWhile jsWhitespace s)

/-- JSON values, the input domain of `validateAndLimitFaqs`. -/
inductive JVal where
  | jstr : List Char → JVal
  | jnum : Int → JVal
  | jbool : Bool → JVal
  | jnull : JVal
  | jarr : List JVal → JVal
  | jobj : List (List Char × JVal) → JVal

/-- Key lookup in an object's field list (JSON objects have unique keys,
so first-match lookup is property access). -/
def lookupField : List (List Char × JVal) → List Char → Option JVal
  | [], _ => none
  | (k, v) :: rest, key => if k = key then some v else lookupField rest key

/-- JavaScript property access `faq.key`: objects look up the key; any
other value yields `undefined` for the keys used here, modelled as
`none`.  (Access on `null`/`undefined` never occurs in the translated
code because it is guarded by a truthiness check.) -/
def getProp : JVal → List Char → Option JVal
  | .jobj kvs, key => lookupField kvs key
  | _, _ => none

/-- JavaScript truthiness of a value (`NaN` is not representable in this
model; the code never produces it). -/
def truthy : JVal → Bool
  | .jstr s => !s.isEmpty
  | .jnum n => n != 0
  | .jbool b => b
  | .jnull => false
  | .jarr _ => true
  | .jobj _ => true

/-- `typeof x === 'string'` where `none` models `undefined`. -/
def isStringProp : Option JVal → Bool
  | some (.jstr _) => true
  | _ => false

/-- Extract the character list from a property known to be a string. -/
def strOfProp : Option JVal → List Char
  | some (.jstr s) => s
  | _ => []

def questionKey : List Char := "question".data

def answerKey : List Char := "answer".data

/-! Constants set in the `FAQWidget` constructor (source lines 11-17). -/

def maxRetries : Nat := 3

def retryDelay : Nat := 2000

def requestTimeout : Nat := 8000

def maxFaqs : Nat := 10

def maxInlineItems : Nat := 100

def maxInlineSize : Nat := 64 * 1024

/-- A sanitized question/answer pair. -/
structure FaqItem where
  question : List Char
  answer : List Char
deriving DecidableEq

/-- First filter of `validateAndLimitFaqs`:
`faq && typeof faq.question === 'string' && typeof faq.answer === 'string'`. -/
def keepRaw (faq : JVal) : Bool :=
  truthy faq && isStringProp (getProp faq questionKey)
    && isStringProp (getProp faq answerKey)

/-- Map step of `validateAndLimitFaqs`:
`{question: faq.question.trim(), answer: faq.answer.trim()}`. -/
def trimEntry (faq : JVal) : FaqItem :=
  ⟨jsTrim (strOfProp (getProp faq questionKey)),
   jsTrim (strOfProp (getProp faq answerKey))⟩

/-- Second filter of `validateAndLimitFaqs`: `faq.question && faq.answer`
(string truthiness: non-empty). -/
def keepTrimmed (f : FaqItem) : Bool :=
  !f.question.isEmpty && !f.answer.isEmpty

/-- `validateAndLimitFaqs` (source lines 519-530): non-arrays yield `[]`;
arrays are filtered to entries with string question/answer, trimmed,
filtered to non-empty, and truncated to `maxFaqs` by `slice(0, 10)`. -/
def validateAndLimitFaqs : JVal → List FaqItem
  | .jarr faqs =>
      (((faqs.filter keepRaw).map trimEntry).filter keepTrimmed).take maxFaqs
  | _ => []

/-- Re-embedding of a sanitized item as the JSON object the map step of
the source constructs. -/
def faqItemToJVal (f : FaqItem) : JVal :=
  .jobj [(questionKey, .jstr f.question), (answerKey, .jstr f.answer)]

/-- Re-embedding of a sanitized collection as a JSON array. -/
def faqListToJVal (l : List FaqItem) : JVal :=
  .jarr (l.map faqItemToJVal)

/-- Modelled from the spec wording of the sanitizer contract, for
comparison with `validateAndLimitFaqs` (which is translated from the
source): keep exactly the entries whose question and answer fields are
both strings, trim both fields, drop entries empty after trimming,
truncate to the display cap of 10; `filterMap` keeps source order. -/
def specSanitize (faqs : List JVal) : List FaqItem :=
  (faqs.filterMap (fun v =>
    if isStringProp (getProp v questionKey)
        && isStringProp (getProp v answerKey) then
      let f := trimEntry v
      if !f.question.isEmpty && !f.answer.isEmpty then some f else none
    else none)).take 10

/-! ### Trim lemmas -/

theorem dropWhile_head_false (p : Char → Bool) :
    ∀ (l : List Char) (a : Char) (t : List Char),
      List.dropWhile p l = a :: t → p a = false := by
  intro l
  induction l with
  | nil => intro a t h; simp [List.dropWhile] at h
  | cons x xs ih =>
      intro a t h
      rw [List.dropWhile_cons] at h
      by_cases hp : p x = true
      · rw [if_pos hp] at h
        exact ih a t h
      · rw [if_neg hp] at h
        cases h
        simpa using hp

theorem jsTrim_head_not_ws (s : List Char) :
    List.dropWhile jsWhitespace (jsTrim s) = jsTrim s := by
  cases h : jsTrim s with
  | nil => rfl
  | cons a t =>
      obtain ⟨rest, hrest⟩ :=
        List.rdropWhile_prefix jsWhitespace (List.dropWhile jsWhitespace s)
      have h' : List.rdropWhile jsWhitespace (List.dropWhile jsWhitespace s)
          = a :: t := h
      rw [h'] at hrest
      have ha : jsWhitespace a = false :=
        dropWhile_head_false jsWhitespace s a (t ++ rest) hrest.symm
      simp [List.dropWhile_cons, ha]

theorem jsTrim_idem (s : List Char) : jsTrim (jsTrim s) = jsTrim s := by
  show List.rdropWhile jsWhitespace (List.dropWhile jsWhitespace (jsTrim s))
      = jsTrim s
  rw [jsTrim_head_not_ws s]
  exact List.rdropWhile_idempotent _ _

/-! ### The remote response and the retry loop -/

/-- The fields of a structurally valid `/page-faqs` JSON reply that
`loadFaqsWithRetry` inspects.  `faqs = none` models the field being
absent; the two flags model JavaScript truthiness of the corresponding
fields. -/
structure RemoteResponse where
  faqs : Option (List JVal)
  faq_file : Option String
  just_crawled : Bool
  faq_generated : Bool
  message : Option String

/-- Does `hay` begin with `needle`? -/
def beginsWith : List Char → List Char → Bool
  | [], _ => true
  | _ :: _, [] => false
  | a :: as, b :: bs => a == b && beginsWith as bs

/-- Substring test, modelling `String.prototype.includes`. -/
def hasSub (needle : List Char) : List Char → Bool
  | [] => beginsWith needle []
  | c :: rest => beginsWith needle (c :: rest) || hasSub needle rest

/-- `result.message && result.message.includes('generating')`. -/
def containsGenerating (m : Option String) : Bool :=
  match m with
  | some s => !s.isEmpty && hasSub "generating".data s.data
  | none => false

/-- `result.faqs && result.faqs.length > 0` (an empty array is truthy in
JavaScript, so the length test decides). -/
def faqsNonEmpty (r : RemoteResponse) : Bool :=
  match r.faqs with
  | some l => decide (0 < l.length)
  | none => false

/-- Truthiness of `result.faq_file` (a string field: non-empty). -/
def truthyFile (r : RemoteResponse) : Bool :=
  match r.faq_file with
  | some s => !s.isEmpty
  | none => false

/-- The retry decision of source lines 149-154. -/
def shouldRetry (r : RemoteResponse) : Bool :=
  truthyFile r || r.just_crawled || r.faq_generated
    || containsGenerating r.message

/-- `!result.faqs || result.faqs.length === 0` (source line 162). -/
def faqsEmptyOrAbsent (r : RemoteResponse) : Bool :=
  match r.faqs with
  | some l => decide (l.length = 0)
  | none => true

/-- A settled fetch promise: either a parsed JSON body (`none` modelling
a JSON `null`) or a thrown error carrying its message. -/
inductive FetchOutcome where
  | success (result : Option RemoteResponse)
  | failure (errMsg : String)

/-- Observable effects of one run of the retry loop. -/
inductive WidgetEvent where
  | request (forceRefresh : Bool)
  | statusMsg (msg : String)
  | wait (ms : Nat)
deriving DecidableEq

/-- Terminal outcome of the retry loop.  `content` is the Content state
(`render` on the received list), `failed` the Error state
(`renderError`), and `starved` marks a run whose next fetch promise
never settles (the script ran out), leaving the loop suspended. -/
inductive Outcome where
  | content (faqs : List JVal)
  | failed (msg : String)
  | starved

/-- The status text of source line 175. -/
def retryingMsg (k : Nat) : String :=
  "Generating FAQs... retrying (" ++ toString k ++ "/"
    ++ toString maxRetries ++ ")"

/-- Outcome of the refresh fetch test of source line 164:
`refreshResult && refreshResult.faqs && refreshResult.faqs.length > 0`. -/
def refreshHit (rr : Option RemoteResponse) : Bool :=
  match rr with
  | some r2 => faqsNonEmpty r2
  | none => false

def refreshFaqs (rr : Option RemoteResponse) : List JVal :=
  match rr with
  | some r2 => r2.faqs.getD []
  | none => []

/-- The `while` loop of `loadFaqsWithRetry` (source lines 136-188),
translated with `remaining = maxRetries - retryCount` as the loop
variant.  `script` is the sequence of settled fetch promises, consumed
in order by every `fetchFaqs` call — the ordinary attempt fetches and
the force-refresh fetch alike.  The result pairs the terminal outcome
with the emitted events: each network request (tagged with its
`forceRefresh` argument), each `renderStatus` message, and each
2000ms backoff `delay`. -/
def loadGo : Nat → List FetchOutcome → Outcome × List WidgetEvent
  | 0, _ => (.failed "No FAQs generated after multiple attempts", [])
  | _ + 1, [] => (.starved, [.request false])
  | r + 1, .failure msg :: rest =>
      if r = 0 then
        (.failed ("Failed to load FAQs: " ++ msg), [.request false])
      else
        ((loadGo r rest).1,
         .request false :: .wait retryDelay :: (loadGo r rest).2)
  | _ + 1, .success none :: _ =>
      (.failed "No FAQs available for this page", [.request false])
  | r + 1, .success (some resp) :: rest =>
      if faqsNonEmpty resp then
        (.content (resp.faqs.getD []), [.request false])
      else if !shouldRetry resp then
        (.failed "No FAQs available for this page", [.request false])
      else if truthyFile resp && faqsEmptyOrAbsent resp then
        match rest with
        | [] => (.starved, [.request false, .request true])
        | .failure msg :: rest2 =>
            if r = 0 then
              (.failed ("Failed to load FAQs: " ++ msg),
               [.request false, .request true])
            else
              ((loadGo r rest2).1, .request false :: .request true ::
                .wait retryDelay :: (loadGo r rest2).2)
        | .success rr :: rest2 =>
            if refreshHit rr then
              (.content (refreshFaqs rr), [.request false, .request true])
            else if r = 0 then
              (.failed "No FAQs generated after multiple attempts",
               [.request false, .request true])
            else
              ((loadGo r rest2).1, .request false :: .request true ::
                .statusMsg (retryingMsg (maxRetries - r)) ::
                .wait retryDelay :: (loadGo r rest2).2)
      else
        if r = 0 then
          (.failed "No FAQs generated after multiple attempts",
           [.request false])
        else
          ((loadGo r rest).1, .request false ::
            .statusMsg (retryingMsg (maxRetries - r)) ::
            .wait retryDelay :: (loadGo r rest).2)

/-- `loadFaqsWithRetry` starts with `this.retryCount = 0`, hence
`maxRetries` remaining attempts. -/
def loadFaqsWithRetry (script : List FetchOutcome) :
    Outcome × List WidgetEvent :=
  loadGo maxRetries script

/-- Counts the ordinary (non-refresh) attempt requests in an event
trace. -/
def countAttempts (evs : List WidgetEvent) : Nat :=
  evs.countP (fun e =>
    match e with
    | .request b => !b
    | _ => false)

/-! ### fetchFaqs: error normalisation and query construction -/

/-- The possible fates of the underlying `fetch` call. -/
inductive NetResult where
  | httpOk (body : Option RemoteResponse)
  | httpErr (status : Nat)
  | netErr (msg : String)
  | timedOut

/-- Error normalisation of `fetchFaqs` (source lines 210-220): a
non-success HTTP status throws `HTTP <status>`; an abort — the
`requestTimeout` (8000ms) timer fired — is rethrown as
`Request timeout`; other transport errors propagate unchanged; a
successful response body is returned parsed. -/
def fetchFaqs : NetResult → FetchOutcome
  | .httpOk body => .success body
  | .httpErr status => .failure ("HTTP " ++ toString status)
  | .netErr msg => .failure msg
  | .timedOut => .failure "Request timeout"

/-- The query parameters built by `fetchFaqs` (source lines 196-199):
`url` always, `target_language` only for a truthy `lang`, and
`force_refresh=true` only when the `forceRefresh` argument is set. -/
structure QueryParams where
  url : String
  target_language : Option String
  force_refresh : Option String

def buildQuery (url : String) (lang : Option String)
    (forceRefresh : Bool) : QueryParams :=
  { url := url
    target_language :=
      match lang with
      | some s => if s.isEmpty then none else some s
      | none => none
    force_refresh := if forceRefresh then some "true" else none }

/-! ### Widget state: shadow DOM, render, accordion -/

/-- One accordion item as rendered by `buildAccordion`: its texts and
its `aria-expanded` flag. -/
structure RenderedItem where
  question : List Char
  answer : List Char
  ariaExpanded : Bool
deriving DecidableEq

/-- The shadow root's content: nothing yet, the Loading view, the
Content view (heading and accordion items), or the Error view. -/
inductive ShadowContent where
  | empty
  | loading (heading : String)
  | contentView (heading : String) (items : List RenderedItem)
  | errorView (msg : String)
deriving DecidableEq

/-- The mutable per-instance fields relevant here, as set in the
constructor (source lines 9-19) plus the shadow root.  Note that the
class declares no generation or cycle-identity field of any kind. -/
structure WidgetState where
  shadow : ShadowContent
  retryCount : Nat
  currentOpenIndex : Int
deriving DecidableEq

/-- Constructor state: `currentOpenIndex = -1` (source line 18).  This
is the only place in the source that assigns `-1` outside
`toggleItem`. -/
def initialWidget : WidgetState :=
  { shadow := .empty, retryCount := 0, currentOpenIndex := -1 }

/-- `render(faqs, heading)` (source lines 224-346): sanitise the list,
replace the shadow DOM with a fresh accordion whose every item carries
`aria-expanded="false"` (`buildAccordion`, lines 348-371), reattach the
click handlers.  It assigns neither `currentOpenIndex` nor
`retryCount`. -/
def render (faqs : JVal) (heading : String) (w : WidgetState) :
    WidgetState :=
  let valid := validateAndLimitFaqs faqs
  let items : List RenderedItem :=
    valid.map (fun f => ⟨f.question, f.answer, false⟩)
  { w with shadow := ShadowContent.contentView heading items }

/-- `renderError(message)` (source lines 494-517): replace the shadow
DOM with the error view. -/
def renderError (msg : String) (w : WidgetState) : WidgetState :=
  { w with shadow := .errorView msg }

/-- `renderLoading(heading)` (source lines 440-485). -/
def renderLoading (heading : String) (w : WidgetState) : WidgetState :=
  { w with shadow := .loading heading }

/-- The accordion items of the current shadow content (empty when no
Content view is painted). -/
def shadowItems (w : WidgetState) : List RenderedItem :=
  match w.shadow with
  | .contentView _ items => items
  | _ => []

/-- Set the `aria-expanded` flag of the item at an index
(`openItem`/`closeItem`, source lines 402-416, which set the
attribute on the button/answer pair at that index). -/
def setExpanded : List RenderedItem → Nat → Bool → List RenderedItem
  | [], _, _ => []
  | it :: rest, 0, b => { it with ariaExpanded := b } :: rest
  | it :: rest, n + 1, b => it :: setExpanded rest n b

/-- `toggleItem(index)` (source lines 382-400): if `index` is the
currently recorded open index, close it and record none (`-1`);
otherwise close the previously recorded item if one is recorded
(`currentOpenIndex >= 0`), open `index` and record it.  Indices are in
range in every reachable call: the handlers are attached exactly to the
rendered buttons. -/
def toggleItem (index : Nat) (w : WidgetState) : WidgetState :=
  match w.shadow with
  | .contentView heading items =>
      if w.currentOpenIndex = (index : Int) then
        { w with
          shadow := .contentView heading (setExpanded items index false)
          currentOpenIndex := -1 }
      else
        let items1 :=
          if 0 ≤ w.currentOpenIndex then
            setExpanded items w.currentOpenIndex.toNat false
          else items
        { w with
          shadow := .contentView heading (setExpanded items1 index true)
          currentOpenIndex := (index : Int) }
  | _ => w

/-- Is the item at index `j` expanded? -/
def openAt : List RenderedItem → Nat → Bool
  | [], _ => false
  | it :: _, 0 => it.ariaExpanded
  | _ :: rest, j + 1 => openAt rest j

/-- The exclusivity invariant: every expanded item is the recorded
one. -/
def exclusiveOpen (w : WidgetState) : Prop :=
  ∀ j : Nat, openAt (shadowItems w) j = true →
    (j : Int) = w.currentOpenIndex

/-! ### Inline JSON and the initializeWidget dispatch -/

/-- `getInlineJson` (source lines 73-100).  The JSON parser is passed
as a function argument so that the development can state that an
oversized payload is never parsed: the result of the size-capped path
does not depend on the parser at all.  `tagText` is the text content of
the inline `script[type="application/json"]` tag, `none` when no such
tag exists.  A parse failure (the `catch`) and a parse to a non-array
both yield `null`; arrays longer than `maxInlineItems` are truncated in
place by `splice`. -/
def getInlineJson (parse : String → Option JVal)
    (tagText : Option String) : Option (List JVal) :=
  match tagText with
  | none => none
  | some text =>
      if text.length > maxInlineSize then none
      else
        match parse text with
        | none => none
        | some (.jarr data) =>
            some (if data.length > maxInlineItems then
                    data.take maxInlineItems
                  else data)
        | some _ => none

/-- The three continuations of `initializeWidget` (source lines
54-70): render the inline data, or enter remote resolution
(`renderLoading` + `loadFaqsWithRetry`), or fail with the no-source
error `No URL provided and no inline FAQs found`. -/
inductive InitAction where
  | renderInline (faqs : List JVal)
  | startRemote
  | failNoSource

/-- Truthiness of the `data-url` attribute (`null` when absent, falsy
when the empty string). -/
def urlTruthy : Option String → Bool
  | some s => !s.isEmpty
  | none => false

/-- The dispatch at the end of `initializeWidget`. -/
def initWidget (parse : String → Option JVal) (tagText : Option String)
    (url : Option String) : InitAction :=
  match getInlineJson parse tagText with
  | some data => .renderInline data
  | none => if urlTruthy url then .startRemote else .failNoSource

/-! ### Resuming a fetch inside a superseded cycle -/

/-- The continuation of the retry loop's body after
`await this.fetchFaqs(...)` settles successfully (source lines
138-159), applied to whatever widget state exists at resumption time.
Because the `FAQWidget` class has no generation or cycle-identity
field (constructor, lines 9-19), this continuation consults nothing
about which resolution cycle currently owns the shadow root: a
non-empty FAQ list is rendered unconditionally, and an
empty-and-not-retryable result paints the error view unconditionally.
(The retryable continuation cases mutate only via `renderStatus` or a
later iteration and are irrelevant to the repaint question; they leave
the state unchanged here.) -/
def resumeAfterFetch (heading : String) (result : Option RemoteResponse)
    (w : WidgetState) : WidgetState :=
  match result with
  | none => renderError "No FAQs available for this page" w
  | some resp =>
      if faqsNonEmpty resp then
        render (.jarr (resp.faqs.getD [])) heading w
      else if !shouldRetry resp then
        renderError "No FAQs available for this page" w
      else w

/-- A well-formed candidate entry, used in concrete examples. -/
def mkEntry (q a : String) : JVal :=
  .jobj [(questionKey, .jstr q.data), (answerKey, .jstr a.data)]

/-! ### Sanitizer theorems -/

theorem isStringProp_getProp_truthy (v : JVal) (k : List Char)
    (h : isStringProp (getProp v k) = true) : truthy v = true := by
  cases v <;> simp [getProp, isStringProp, truthy] at h ⊢

theorem pipeline_eq_spec (l : List JVal) :
    (((l.filter keepRaw).map trimEntry).filter keepTrimmed)
      = l.filterMap (fun v =>
          if isStringProp (getProp v questionKey)
              && isStringProp (getProp v answerKey) then
            let f := trimEntry v
            if !f.question.isEmpty && !f.answer.isEmpty then some f
            else none
          else none) := by
  induction l with
  | nil => rfl
  | cons v l ih =>
      by_cases hq : isStringProp (getProp v questionKey) = true
      · by_cases ha2 : isStringProp (getProp v answerKey) = true
        · have ht : truthy v = true :=
            isStringProp_getProp_truthy v questionKey hq
          have hk : keepRaw v = true := by simp [keepRaw, ht, hq, ha2]
          by_cases hkt : keepTrimmed (trimEntry v) = true
          · simp only [List.filter_cons, List.filterMap_cons, hk,
              List.map_cons, hq, ha2, Bool.and_self, if_true]
            have hkt2 := hkt
            simp only [keepTrimmed] at hkt2
            simp [hkt, hkt2, ih]
          · simp only [List.filter_cons, List.filterMap_cons, hk,
              List.map_cons, hq, ha2, Bool.and_self, if_true]
            have hkt2 : (!(trimEntry v).question.isEmpty
                && !(trimEntry v).answer.isEmpty) = false := by
              simpa [keepTrimmed] using hkt
            simp [hkt, hkt2, ih]
        · have hk : keepRaw v = false := by
            simp [keepRaw]
            intro _ _
            simpa using ha2
          simp [List.filter_cons, List.filterMap_cons, hk, hq, ha2, ih]
      · have hk : keepRaw v = false := by
          simp [keepRaw]
          intro _ h2
          exact absurd h2 hq
        simp [List.filter_cons, List.filterMap_cons, hk, hq, ih]

theorem length_validate_le (v : JVal) :
    (validateAndLimitFaqs v).length ≤ maxFaqs := by
  cases v with
  | jarr l => exact List.length_take_le _ _
  | jstr s => simp [validateAndLimitFaqs]
  | jnum n => simp [validateAndLimitFaqs]
  | jbool b => simp [validateAndLimitFaqs]
  | jnull => simp [validateAndLimitFaqs]
  | jobj kvs => simp [validateAndLimitFaqs]

/-- C4: the sanitizer returns `[]` on non-array input; on arrays it
agrees with the specification-worded normalisation (keep exactly the
entries with string question and answer, trim, drop empties, truncate
to 10, in source order); its output never exceeds the display cap; and
the spec's concrete example sanitises to exactly
`[{question:"Q2", answer:"A2"}]`. -/
theorem validateAndLimitFaqs_contract :
    (∀ v : JVal, (∀ l, v ≠ JVal.jarr l) → validateAndLimitFaqs v = [])
    ∧ (∀ l : List JVal,
        validateAndLimitFaqs (JVal.jarr l) = specSanitize l)
    ∧ (∀ v : JVal, (validateAndLimitFaqs v).length ≤ maxFaqs)
    ∧ validateAndLimitFaqs (JVal.jarr
        [mkEntry " " "x", mkEntry "Q" " ", mkEntry "Q2" "A2"])
        = [⟨"Q2".data, "A2".data⟩] := by
  refine ⟨?_, ?_, ?_, ?_⟩
  · intro v hv
    cases v with
    | jarr l => exact absurd rfl (hv l)
    | jstr s => rfl
    | jnum n => rfl
    | jbool b => rfl
    | jnull => rfl
    | jobj kvs => rfl
  · intro l
    show (((l.filter keepRaw).map trimEntry).filter keepTrimmed).take
        maxFaqs = specSanitize l
    rw [pipeline_eq_spec]
    rfl
  · intro v
    exact length_validate_le v
  · rfl

/-- Closed witness for the hypothesised conjunct of C4. -/
theorem validateAndLimitFaqs_contract_witness :
    validateAndLimitFaqs JVal.jnull = [] :=
  validateAndLimitFaqs_contract.1 JVal.jnull (fun _ h => JVal.noConfusion h)

theorem keepRaw_faqItemToJVal (f : FaqItem) :
    keepRaw (faqItemToJVal f) = true := rfl

theorem trimEntry_faqItemToJVal (f : FaqItem) :
    trimEntry (faqItemToJVal f)
      = ⟨jsTrim f.question, jsTrim f.answer⟩ := rfl

theorem mem_validate (v : JVal) (f : FaqItem)
    (hf : f ∈ validateAndLimitFaqs v) :
    keepTrimmed f = true ∧ jsTrim f.question = f.question
      ∧ jsTrim f.answer = f.answer := by
  cases v with
  | jarr l =>
      have hf2 : f ∈ ((l.filter keepRaw).map trimEntry).filter
          keepTrimmed := List.mem_of_mem_take hf
      have hf3 := List.mem_filter.mp hf2
      obtain ⟨w, _, hw⟩ := List.mem_map.mp hf3.1
      refine ⟨hf3.2, ?_, ?_⟩
      · rw [← hw]
        show jsTrim (jsTrim _) = jsTrim _
        exact jsTrim_idem _
      · rw [← hw]
        show jsTrim (jsTrim _) = jsTrim _
        exact jsTrim_idem _
  | jstr s => simp [validateAndLimitFaqs] at hf
  | jnum n => simp [validateAndLimitFaqs] at hf
  | jbool b => simp [validateAndLimitFaqs] at hf
  | jnull => simp [validateAndLimitFaqs] at hf
  | jobj kvs => simp [validateAndLimitFaqs] at hf

theorem pipeline_roundtrip (out : List FaqItem)
    (h : ∀ f ∈ out, keepTrimmed f = true ∧ jsTrim f.question = f.question
          ∧ jsTrim f.answer = f.answer) :
    (((out.map faqItemToJVal).filter keepRaw).map trimEntry).filter
      keepTrimmed = out := by
  induction out with
  | nil => rfl
  | cons f rest ih =>
      have hf := h f (by simp)
      have hrest : ∀ g ∈ rest, keepTrimmed g = true
          ∧ jsTrim g.question = g.question ∧ jsTrim g.answer = g.answer :=
        fun g hg => h g (by simp [hg])
      have hface : trimEntry (faqItemToJVal f) = f := by
        rw [trimEntry_faqItemToJVal, hf.2.1, hf.2.2]
      simp only [List.map_cons, List.filter_cons, keepRaw_faqItemToJVal,
        if_true, hface, hf.1, ih hrest]

/-- C5: the sanitizer is idempotent — re-sanitizing its own output
(re-embedded as the JSON array the source builds) returns that output
unchanged.  Purity holds by construction: `validateAndLimitFaqs` is a
function of its argument alone (the only instance field the source
reads is the constant `maxFaqs`, and it mutates nothing). -/
theorem validateAndLimitFaqs_idem (v : JVal) :
    validateAndLimitFaqs (faqListToJVal (validateAndLimitFaqs v))
      = validateAndLimitFaqs v := by
  have hmem := mem_validate v
  have hlen : (validateAndLimitFaqs v).length ≤ maxFaqs :=
    length_validate_le v
  show (((((validateAndLimitFaqs v).map faqItemToJVal).filter
      keepRaw).map trimEntry).filter keepTrimmed).take maxFaqs
      = validateAndLimitFaqs v
  rw [pipeline_roundtrip _ hmem]
  exact List.take_of_length_le hlen

/-! ### Retry loop theorems -/

/-- An empty response with only the `just_crawled` in-progress signal,
as in the spec's retry scenario. -/
def inProgressResp : RemoteResponse :=
  { faqs := some [], faq_file := none, just_crawled := true,
    faq_generated := false, message := none }

/-- A response carrying one well-formed FAQ. -/
def goodResp : RemoteResponse :=
  { faqs := some [mkEntry "Q" "A"], faq_file := none,
    just_crawled := false, faq_generated := false, message := none }

/-- An empty response with no in-progress signal at all. -/
def terminalEmptyResp : RemoteResponse :=
  { faqs := some [], faq_file := none, just_crawled := false,
    faq_generated := false, message := none }

/-- An empty response that carries a file reference. -/
def fileEmptyResp : RemoteResponse :=
  { faqs := some [], faq_file := some "storage/datasets/faqs/x.md",
    just_crawled := false, faq_generated := false, message := none }

theorem countAttempts_loadGo_le (r : Nat) :
    ∀ script : List FetchOutcome, countAttempts (loadGo r script).2 ≤ r := by
  induction r with
  | zero => intro script; simp [loadGo, countAttempts]
  | succ r ih =>
      intro script
      cases script with
      | nil => simp [loadGo, countAttempts, List.countP_cons]
      | cons o rest =>
          cases o with
          | failure msg =>
              by_cases h : r = 0
              · simp [loadGo, h, countAttempts, List.countP_cons]
              · have hr := ih rest
                simp only [loadGo, if_neg h]
                simp only [countAttempts, List.countP_cons] at hr ⊢
                simp
                omega
          | success result =>
              cases result with
              | none => simp [loadGo, countAttempts, List.countP_cons]
              | some resp =>
                  cases h1 : faqsNonEmpty resp with
                  | true =>
                      simp [loadGo, h1, countAttempts, List.countP_cons]
                  | false =>
                  cases h2 : shouldRetry resp with
                  | false =>
                      simp [loadGo, h1, h2, countAttempts, List.countP_cons]
                  | true =>
                  cases h3 : truthyFile resp && faqsEmptyOrAbsent resp with
                  | false =>
                      by_cases h : r = 0
                      · simp [loadGo, h1, h2, h3, h, countAttempts,
                          List.countP_cons]
                      · have hr := ih rest
                        simp only [loadGo, h1, h2, h3, if_neg h]
                        simp only [countAttempts, List.countP_cons] at hr ⊢
                        simp
                        omega
                  | true =>
                      cases rest with
                      | nil =>
                          simp [loadGo, h1, h2, h3, countAttempts,
                            List.countP_cons]
                      | cons o2 rest2 =>
                          cases o2 with
                          | failure msg =>
                              by_cases h : r = 0
                              · simp [loadGo, h1, h2, h3, h, countAttempts,
                                  List.countP_cons]
                              · have hr := ih rest2
                                simp only [loadGo, h1, h2, h3, if_neg h]
                                simp only [countAttempts,
                                  List.countP_cons] at hr ⊢
                                simp
                                omega
                          | success rr =>
                              cases h4 : refreshHit rr with
                              | true =>
                                  simp [loadGo, h1, h2, h3, h4,
                                    countAttempts, List.countP_cons]
                              | false =>
                                  by_cases h : r = 0
                                  · simp [loadGo, h1, h2, h3, h4, h,
                                      countAttempts, List.countP_cons]
                                  · have hr := ih rest2
                                    simp only [loadGo, h1, h2, h3, h4,
                                      if_neg h]
                                    simp only [countAttempts,
                                      List.countP_cons] at hr ⊢
                                    simp
                                    omega

/-- C1: the retry loop makes at most `maxRetries = 3` ordinary attempts
in any run; a structurally valid response with a non-empty FAQ list ends
resolution immediately in the Content state at whatever attempt it
arrives, with no further events; on the spec's scenario (in-progress
twice, then one FAQ) it ends in Content after emitting exactly the two
`Generating FAQs... retrying (k/3)` status messages each followed by
the fixed 2000ms backoff, and the rendered sanitized list has exactly
one item; and three exhausted attempts fail with
`No FAQs generated after multiple attempts`. -/
theorem loadFaqsWithRetry_bounded_and_success :
    (∀ script : List FetchOutcome,
        countAttempts (loadFaqsWithRetry script).2 ≤ maxRetries)
    ∧ (∀ (r : Nat) (rest : List FetchOutcome) (resp : RemoteResponse),
        faqsNonEmpty resp = true →
        loadGo (r + 1) (.success (some resp) :: rest)
          = (.content (resp.faqs.getD []), [.request false]))
    ∧ loadFaqsWithRetry
        [.success (some inProgressResp), .success (some inProgressResp),
         .success (some goodResp)]
        = (.content [mkEntry "Q" "A"],
           [.request false,
            .statusMsg "Generating FAQs... retrying (1/3)",
            .wait 2000,
            .request false,
            .statusMsg "Generating FAQs... retrying (2/3)",
            .wait 2000,
            .request false])
    ∧ (validateAndLimitFaqs (.jarr [mkEntry "Q" "A"])).length = 1
    ∧ loadFaqsWithRetry
        [.success (some inProgressResp), .success (some inProgressResp),
         .success (some inProgressResp)]
        = (.failed "No FAQs generated after multiple attempts",
           [.request false,
            .statusMsg "Generating FAQs... retrying (1/3)",
            .wait 2000,
            .request false,
            .statusMsg "Generating FAQs... retrying (2/3)",
            .wait 2000,
            .request false]) := by
  refine ⟨?_, ?_, ?_, ?_, ?_⟩
  · intro script
    exact countAttempts_loadGo_le maxRetries script
  · intro r rest resp h
    simp [loadGo, h]
  · rfl
  · rfl
  · rfl

/-- Closed witness for the hypothesised conjunct of C1: a first-attempt
success consumes no further attempt and emits a single request. -/
theorem loadFaqsWithRetry_bounded_and_success_witness :
    loadGo (2 + 1) [.success (some goodResp)]
      = (.content (goodResp.faqs.getD []), [.request false]) :=
  loadFaqsWithRetry_bounded_and_success.2.1 2 [] goodResp rfl

/-- C2: a structurally valid response with an empty FAQ list and none of
the four in-progress signals fails the whole resolution immediately with
the no-FAQs-available error on that same attempt: a single ordinary
request, no forced refresh, no status message, no backoff, and the rest
of the script is never consumed. -/
theorem emptyTerminal_fails_immediately (r : Nat)
    (rest : List FetchOutcome) (resp : RemoteResponse)
    (hempty : resp.faqs = some [])
    (hfile : truthyFile resp = false)
    (hjc : resp.just_crawled = false)
    (hfg : resp.faq_generated = false)
    (hmsg : containsGenerating resp.message = false) :
    loadGo (r + 1) (.success (some resp) :: rest)
      = (.failed "No FAQs available for this page", [.request false]) := by
  have h1 : faqsNonEmpty resp = false := by simp [faqsNonEmpty, hempty]
  have h2 : shouldRetry resp = false := by
    simp [shouldRetry, hfile, hjc, hfg, hmsg]
  simp [loadGo, h1, h2]

/-- Closed witness for C2: the spec's `{faqs: [], just_crawled: false}`
response on the first of three attempts. -/
theorem emptyTerminal_fails_immediately_witness :
    loadGo (2 + 1) [.success (some terminalEmptyResp)]
      = (.failed "No FAQs available for this page", [.request false]) :=
  emptyTerminal_fails_immediately 2 [] terminalEmptyResp
    rfl rfl rfl rfl rfl

/-- C3: only the out-of-band refresh variant carries
`force_refresh=true`; on an attempt whose response pairs a file
reference with an empty list, the forced-refresh request is issued
immediately after the ordinary one — before the attempt counter moves
and before any status message or backoff — and exactly once on that
attempt; and when the forced-refresh response carries a non-empty list,
resolution succeeds immediately with that list. -/
theorem forceRefresh_on_file_with_empty (r : Nat)
    (rest : List FetchOutcome) (resp : RemoteResponse)
    (hfile : truthyFile resp = true)
    (hempty : resp.faqs = some []) :
    (∀ (url : String) (lang : Option String),
        (buildQuery url lang true).force_refresh = some "true"
          ∧ (buildQuery url lang false).force_refresh = none)
    ∧ (∀ next : FetchOutcome,
        ((loadGo (r + 1) (.success (some resp) :: next :: rest)).2).take 2
          = [.request false, .request true])
    ∧ (∀ rr : RemoteResponse, faqsNonEmpty rr = true →
        loadGo (r + 1)
            (.success (some resp) :: .success (some rr) :: rest)
          = (.content (rr.faqs.getD []),
             [.request false, .request true]))
    ∧ (∀ rr : Option RemoteResponse, refreshHit rr = false → r ≠ 0 →
        loadGo (r + 1) (.success (some resp) :: .success rr :: rest)
          = ((loadGo r rest).1,
             .request false :: .request true ::
               .statusMsg (retryingMsg (maxRetries - r)) ::
               .wait retryDelay :: (loadGo r rest).2)) := by
  have h1 : faqsNonEmpty resp = false := by simp [faqsNonEmpty, hempty]
  have h2 : shouldRetry resp = true := by simp [shouldRetry, hfile]
  have h3 : (truthyFile resp && faqsEmptyOrAbsent resp) = true := by
    simp [hfile, faqsEmptyOrAbsent, hempty]
  refine ⟨?_, ?_, ?_, ?_⟩
  · intro url lang
    exact ⟨rfl, rfl⟩
  · intro next
    cases next with
    | failure msg =>
        by_cases h : r = 0 <;> simp [loadGo, h1, h2, h3, h]
    | success rr =>
        cases h4 : refreshHit rr with
        | true => simp [loadGo, h1, h2, h3, h4]
        | false =>
            by_cases h : r = 0 <;> simp [loadGo, h1, h2, h3, h4, h]
  · intro rr hrr
    have h4 : refreshHit (some rr) = true := by simp [refreshHit, hrr]
    simp [loadGo, h1, h2, h3, h4, refreshFaqs]
  · intro rr h4 hr0
    simp [loadGo, h1, h2, h3, h4, if_neg hr0]

/-- Closed witness for C3: a file-plus-empty response whose forced
refresh returns one FAQ succeeds immediately with it. -/
theorem forceRefresh_on_file_with_empty_witness :
    loadGo (2 + 1)
        [.success (some fileEmptyResp), .success (some goodResp)]
      = (.content (goodResp.faqs.getD []),
         [.request false, .request true]) :=
  (forceRefresh_on_file_with_empty 2 [] fileEmptyResp rfl rfl).2.2.1
    goodResp rfl

/-- C10: a thrown error from the forced-refresh request is caught by the
retry loop's handler and consumes one attempt of the same budget; when
it consumes the final attempt the run fails with
`Failed to load FAQs: <cause>` — not with the retries-exhausted
message — and `fetchFaqs` normalises an abort of the 8000ms timer to
the cause `Request timeout` and a non-success status to `HTTP <n>`. -/
theorem refreshFailure_consumes_attempt :
    (∀ (rest : List FetchOutcome) (resp : RemoteResponse) (msg : String),
        truthyFile resp = true → resp.faqs = some [] →
        loadGo (0 + 1) (.success (some resp) :: .failure msg :: rest)
          = (.failed ("Failed to load FAQs: " ++ msg),
             [.request false, .request true]))
    ∧ (∀ (r : Nat) (rest : List FetchOutcome) (resp : RemoteResponse)
          (msg : String), r ≠ 0 →
        truthyFile resp = true → resp.faqs = some [] →
        loadGo (r + 1) (.success (some resp) :: .failure msg :: rest)
          = ((loadGo r rest).1,
             .request false :: .request true :: .wait retryDelay
               :: (loadGo r rest).2))
    ∧ fetchFaqs .timedOut = .failure "Request timeout"
    ∧ fetchFaqs (.httpErr 500) = .failure "HTTP 500"
    ∧ requestTimeout = 8000
    ∧ ("Failed to load FAQs: " ++ "Request timeout"
        ≠ "No FAQs generated after multiple attempts") := by
  refine ⟨?_, ?_, rfl, rfl, rfl, by decide⟩
  · intro rest resp msg hfile hempty
    have h1 : faqsNonEmpty resp = false := by simp [faqsNonEmpty, hempty]
    have h2 : shouldRetry resp = true := by simp [shouldRetry, hfile]
    have h3 : (truthyFile resp && faqsEmptyOrAbsent resp) = true := by
      simp [hfile, faqsEmptyOrAbsent, hempty]
    simp [loadGo, h1, h2, h3]
  · intro r rest resp msg hr0 hfile hempty
    have h1 : faqsNonEmpty resp = false := by simp [faqsNonEmpty, hempty]
    have h2 : shouldRetry resp = true := by simp [shouldRetry, hfile]
    have h3 : (truthyFile resp && faqsEmptyOrAbsent resp) = true := by
      simp [hfile, faqsEmptyOrAbsent, hempty]
    simp [loadGo, h1, h2, h3, if_neg hr0]

/-- Closed witness for C10: a timed-out forced refresh on the last
attempt surfaces the timeout cause. -/
theorem refreshFailure_consumes_attempt_witness :
    loadGo (0 + 1)
        [.success (some fileEmptyResp), .failure "Request timeout"]
      = (.failed ("Failed to load FAQs: " ++ "Request timeout"),
         [.request false, .request true]) :=
  refreshFailure_consumes_attempt.1 [] fileEmptyResp "Request timeout"
    rfl rfl

/-! ### Render and accordion theorems -/

/-- A three-item inline collection used in the concrete scenarios. -/
def threeFaqsJson : JVal :=
  .jarr [mkEntry "Q0" "A0", mkEntry "Q1" "A1", mkEntry "Q2" "A2"]

theorem length_setExpanded :
    ∀ (items : List RenderedItem) (i : Nat) (b : Bool),
      (setExpanded items i b).length = items.length := by
  intro items
  induction items with
  | nil => intro i b; rfl
  | cons it rest ih =>
      intro i b
      cases i with
      | zero => rfl
      | succ n => simp [setExpanded, ih]

theorem openAt_setExpanded_self :
    ∀ (items : List RenderedItem) (i : Nat) (b : Bool),
      i < items.length → openAt (setExpanded items i b) i = b := by
  intro items
  induction items with
  | nil => intro i b h; simp at h
  | cons it rest ih =>
      intro i b h
      cases i with
      | zero => rfl
      | succ n =>
          have hn : n < rest.length := by simpa using h
          exact ih n b hn

theorem openAt_setExpanded_other :
    ∀ (items : List RenderedItem) (i j : Nat) (b : Bool),
      j ≠ i → openAt (setExpanded items i b) j = openAt items j := by
  intro items
  induction items with
  | nil => intro i j b h; rfl
  | cons it rest ih =>
      intro i j b h
      cases i with
      | zero =>
          cases j with
          | zero => exact absurd rfl h
          | succ m => rfl
      | succ n =>
          cases j with
          | zero => rfl
          | succ m =>
              have hm : m ≠ n := fun hc => h (by rw [hc])
              exact ih n m b hm

theorem openAt_lt_length :
    ∀ (items : List RenderedItem) (j : Nat),
      openAt items j = true → j < items.length := by
  intro items
  induction items with
  | nil => intro j h; simp [openAt] at h
  | cons it rest ih =>
      intro j h
      cases j with
      | zero => simp
      | succ m =>
          have := ih m h
          simpa using Nat.succ_lt_succ this

/-- The recorded index is none, or a valid index of the painted
accordion. -/
def indexSane (w : WidgetState) : Prop :=
  w.currentOpenIndex = -1
    ∨ (0 ≤ w.currentOpenIndex
        ∧ w.currentOpenIndex < ((shadowItems w).length : Int))

/-- The state reached by toggling item 2 then item 0 on the freshly
rendered three-item list. -/
def toggledTwice : WidgetState :=
  toggleItem 0 (toggleItem 2 (render threeFaqsJson "FAQ" initialWidget))

/-- C6 counterexample: `render()` does not reset the recorded open
index.  Opening item 2 and re-rendering leaves `currentOpenIndex = 2`,
so the previously open index survives the `render()` call, contrary to
the claim that it is reset to none on every re-render. -/
theorem render_reset_cex :
    (render threeFaqsJson "FAQ"
        (toggleItem 2 (render threeFaqsJson "FAQ" initialWidget))
      ).currentOpenIndex = 2
    ∧ (render threeFaqsJson "FAQ"
        (toggleItem 2 (render threeFaqsJson "FAQ" initialWidget))
      ).currentOpenIndex ≠ -1 := by
  refine ⟨rfl, ?_⟩
  intro hc
  have h2 : (render threeFaqsJson "FAQ"
      (toggleItem 2 (render threeFaqsJson "FAQ" initialWidget))
    ).currentOpenIndex = 2 := rfl
  rw [h2] at hc
  exact absurd hc (by decide)

/-- C6 amended: every `render()` replaces the accordion with items that
are all closed (so no item remains visually open), but it leaves the
`currentOpenIndex` field untouched; the field is initialised to `-1`
only in the constructor. -/
theorem render_closes_items_keeps_index (faqs : JVal) (heading : String)
    (w : WidgetState) :
    (render faqs heading w).currentOpenIndex = w.currentOpenIndex
    ∧ ((shadowItems (render faqs heading w)).all
        (fun it => !it.ariaExpanded)) = true
    ∧ initialWidget.currentOpenIndex = -1 := by
  refine ⟨rfl, ?_, rfl⟩
  simp only [render, shadowItems]
  rw [List.all_eq_true]
  intro it hit
  obtain ⟨f, _, rfl⟩ := List.mem_map.mp hit
  rfl

theorem shadowItems_mk (heading : String) (items : List RenderedItem)
    (rc : Nat) (cur : Int) :
    shadowItems ⟨ShadowContent.contentView heading items, rc, cur⟩
      = items := rfl

theorem mk_currentOpenIndex (sh : ShadowContent) (rc : Nat) (cur : Int) :
    (WidgetState.mk sh rc cur).currentOpenIndex = cur := rfl

theorem toggleItem_eq_same (heading : String) (items : List RenderedItem)
    (rc : Nat) (cur : Int) (index : Nat) (hc : cur = (index : Int)) :
    toggleItem index ⟨ShadowContent.contentView heading items, rc, cur⟩
      = ⟨ShadowContent.contentView heading (setExpanded items index false),
         rc, -1⟩ := by
  simp [toggleItem, hc]

theorem toggleItem_eq_other_pos (heading : String)
    (items : List RenderedItem) (rc : Nat) (cur : Int) (index : Nat)
    (hc : cur ≠ (index : Int)) (hpos : 0 ≤ cur) :
    toggleItem index ⟨ShadowContent.contentView heading items, rc, cur⟩
      = ⟨ShadowContent.contentView heading
          (setExpanded (setExpanded items cur.toNat false) index true),
         rc, (index : Int)⟩ := by
  simp [toggleItem, hc, hpos]

theorem toggleItem_eq_other_neg (heading : String)
    (items : List RenderedItem) (rc : Nat) (cur : Int) (index : Nat)
    (hc : cur ≠ (index : Int)) (hpos : ¬ 0 ≤ cur) :
    toggleItem index ⟨ShadowContent.contentView heading items, rc, cur⟩
      = ⟨ShadowContent.contentView heading (setExpanded items index true),
         rc, (index : Int)⟩ := by
  simp [toggleItem, hc, hpos]

/-- C7: the accordion keeps at most one item open.  `toggleItem`
preserves the exclusivity invariant (every expanded item is the
recorded one) and index sanity; exclusivity means at most one item is
expanded; toggling the recorded index closes it and records none, and
toggling another index opens it, records it and closes the previously
recorded item; and toggling item 2 then item 0 on the rendered 3-item
list leaves exactly item 0 open. -/
theorem toggleItem_exclusive :
    (∀ (w : WidgetState) (heading : String) (items : List RenderedItem)
        (index : Nat),
        w.shadow = ShadowContent.contentView heading items →
        index < items.length → indexSane w → exclusiveOpen w →
        exclusiveOpen (toggleItem index w)
          ∧ indexSane (toggleItem index w))
    ∧ (∀ w : WidgetState, exclusiveOpen w →
        ∀ j k : Nat, openAt (shadowItems w) j = true →
          openAt (shadowItems w) k = true → j = k)
    ∧ (∀ (w : WidgetState) (heading : String) (items : List RenderedItem)
        (index : Nat),
        w.shadow = ShadowContent.contentView heading items →
        index < items.length →
        ((w.currentOpenIndex = (index : Int) →
            (toggleItem index w).currentOpenIndex = -1
            ∧ openAt (shadowItems (toggleItem index w)) index = false)
          ∧ (w.currentOpenIndex ≠ (index : Int) →
            (toggleItem index w).currentOpenIndex = (index : Int)
            ∧ openAt (shadowItems (toggleItem index w)) index = true
            ∧ (0 ≤ w.currentOpenIndex →
                w.currentOpenIndex.toNat ≠ index →
                openAt (shadowItems (toggleItem index w))
                  w.currentOpenIndex.toNat = false))))
    ∧ (openAt (shadowItems toggledTwice) 0 = true
        ∧ openAt (shadowItems toggledTwice) 1 = false
        ∧ openAt (shadowItems toggledTwice) 2 = false
        ∧ toggledTwice.currentOpenIndex = 0) := by
  refine ⟨?_, ?_, ?_, rfl, rfl, rfl, rfl⟩
  · rintro ⟨shadow, rc, cur⟩ heading items index hsh hidx hsane hexcl
    cases hsh
    by_cases hc : cur = (index : Int)
    · rw [toggleItem_eq_same heading items rc cur index hc]
      constructor
      · intro j hj
        rw [shadowItems_mk] at hj
        by_cases hji : j = index
        · rw [hji, openAt_setExpanded_self items index false hidx] at hj
          exact absurd hj (by simp)
        · rw [openAt_setExpanded_other items index j false hji] at hj
          have h2 := hexcl j hj
          simp only [mk_currentOpenIndex] at h2
          rw [hc] at h2
          exact absurd h2 (by exact_mod_cast hji)
      · left
        rfl
    · by_cases hpos : 0 ≤ cur
      · rw [toggleItem_eq_other_pos heading items rc cur index hc hpos]
        constructor
        · intro j hj
          rw [shadowItems_mk] at hj
          simp only [mk_currentOpenIndex]
          by_cases hji : j = index
          · rw [hji]
          · rw [openAt_setExpanded_other _ index j true hji] at hj
            by_cases hjc : j = cur.toNat
            · rw [hjc] at hj
              by_cases hlt : cur.toNat < items.length
              · rw [openAt_setExpanded_self items cur.toNat false hlt]
                  at hj
                exact absurd hj (by simp)
              · have hlen := openAt_lt_length _ _ hj
                rw [length_setExpanded] at hlen
                exact absurd hlen hlt
            · rw [openAt_setExpanded_other items cur.toNat j false hjc]
                at hj
              have h2 := hexcl j hj
              simp only [mk_currentOpenIndex] at h2
              exfalso
              apply hjc
              omega
        · right
          simp only [shadowItems_mk, mk_currentOpenIndex]
          constructor
          · exact_mod_cast Nat.zero_le index
          · rw [length_setExpanded, length_setExpanded]
            exact_mod_cast hidx
      · rw [toggleItem_eq_other_neg heading items rc cur index hc hpos]
        constructor
        · intro j hj
          rw [shadowItems_mk] at hj
          simp only [mk_currentOpenIndex]
          by_cases hji : j = index
          · rw [hji]
          · rw [openAt_setExpanded_other items index j true hji] at hj
            have h2 := hexcl j hj
            simp only [mk_currentOpenIndex] at h2
            exfalso
            omega
        · right
          simp only [shadowItems_mk, mk_currentOpenIndex]
          constructor
          · exact_mod_cast Nat.zero_le index
          · rw [length_setExpanded]
            exact_mod_cast hidx
  · intro w hexcl j k hj hk
    have h1 := hexcl j hj
    have h2 := hexcl k hk
    omega
  · rintro ⟨shadow, rc, cur⟩ heading items index hsh hidx
    cases hsh
    constructor
    · intro hc
      rw [toggleItem_eq_same heading items rc cur index hc,
        shadowItems_mk]
      exact ⟨rfl, openAt_setExpanded_self items index false hidx⟩
    · intro hc
      by_cases hpos : 0 ≤ cur
      · rw [toggleItem_eq_other_pos heading items rc cur index hc hpos,
          shadowItems_mk]
        refine ⟨rfl, ?_, ?_⟩
        · apply openAt_setExpanded_self
          rw [length_setExpanded]
          exact hidx
        · intro _ hne
          rw [openAt_setExpanded_other _ index cur.toNat true hne]
          by_cases hlt : cur.toNat < items.length
          · exact openAt_setExpanded_self items cur.toNat false hlt
          · cases hop : openAt (setExpanded items cur.toNat false)
                cur.toNat with
            | false => rfl
            | true =>
                have hlen := openAt_lt_length _ _ hop
                rw [length_setExpanded] at hlen
                exact absurd hlen hlt
      · rw [toggleItem_eq_other_neg heading items rc cur index hc hpos,
          shadowItems_mk]
        refine ⟨rfl, openAt_setExpanded_self items index true hidx, ?_⟩
        intro hpos2 _
        exact absurd hpos2 hpos

/-- Closed witness for C7: toggling item 0 on the freshly rendered
three-item list (recorded index `-1`, so a different index) opens item
0 and records it. -/
theorem toggleItem_exclusive_witness :
    (toggleItem 0 (render threeFaqsJson "FAQ" initialWidget)
      ).currentOpenIndex = ((0 : Nat) : Int)
    ∧ openAt (shadowItems
        (toggleItem 0 (render threeFaqsJson "FAQ" initialWidget))) 0
      = true := by
  have h := (toggleItem_exclusive.2.2.1
      (render threeFaqsJson "FAQ" initialWidget) "FAQ"
      (shadowItems (render threeFaqsJson "FAQ" initialWidget)) 0
      rfl (by decide)).2 (by decide)
  exact ⟨h.1, h.2.1⟩

/-! ### Inline payload theorems -/

/-- C8: an inline payload whose size exceeds the 64KB cap is ignored
without ever being parsed — the result of `getInlineJson` is `none` and
does not depend on the parser at all — and `initializeWidget` then
proceeds to remote resolution when a truthy target URL is configured,
or fails with the no-source error when none is. -/
theorem oversizedInline_ignored (parse parse2 : String → Option JVal)
    (text : String) (url : Option String)
    (hbig : text.length > maxInlineSize) :
    getInlineJson parse (some text) = none
    ∧ getInlineJson parse (some text) = getInlineJson parse2 (some text)
    ∧ (urlTruthy url = true →
        initWidget parse (some text) url = .startRemote)
    ∧ (urlTruthy url = false →
        initWidget parse (some text) url = .failNoSource) := by
  have h1 : getInlineJson parse (some text) = none := by
    simp [getInlineJson, if_pos hbig]
  have h2 : getInlineJson parse2 (some text) = none := by
    simp [getInlineJson, if_pos hbig]
  refine ⟨h1, h1.trans h2.symm, ?_, ?_⟩
  · intro hu
    simp [initWidget, h1, hu]
  · intro hu
    simp [initWidget, h1, hu]

/-- A concrete 65537-character payload. -/
def bigText : String := String.mk (List.replicate 65537 'a')

/-- Closed witness for C8: the concrete oversized payload is dropped
and a configured URL leads to remote resolution. -/
theorem oversizedInline_ignored_witness :
    getInlineJson (fun _ => none) (some bigText) = none
    ∧ initWidget (fun _ => none) (some bigText)
        (some "http://localhost:8000") = .startRemote := by
  have hlen : bigText.length = 65537 := by
    show (List.replicate 65537 'a').length = 65537
    exact List.length_replicate _ _
  have hbig : bigText.length > maxInlineSize := by
    rw [hlen]
    decide
  have h := oversizedInline_ignored (fun _ => none) (fun _ => none)
    bigText (some "http://localhost:8000") hbig
  exact ⟨h.1, h.2.2.1 rfl⟩

/-! ### Stale-cycle repaint (generation-token claim) -/

/-- The shadow content painted by a newer resolution cycle. -/
def newCycleState : WidgetState :=
  render (.jarr [mkEntry "New question" "New answer"]) "New heading"
    initialWidget

/-- A late successful response belonging to the superseded cycle. -/
def staleResp : RemoteResponse :=
  { faqs := some [mkEntry "Old question" "Old answer"], faq_file := none,
    just_crawled := false, faq_generated := false, message := none }

/-- C9 failing input: the widget has no generation token (the
`WidgetState` fields mirror everything the constructor initialises), so
when the superseded cycle's awaited fetch settles with a non-empty
list, its continuation repaints the shadow root over the newer cycle's
output unconditionally: the newer cycle's content is replaced by the
stale cycle's content. -/
theorem stale_resume_repaints :
    (resumeAfterFetch "Old heading" (some staleResp) newCycleState).shadow
      ≠ newCycleState.shadow
    ∧ (resumeAfterFetch "Old heading" (some staleResp) newCycleState
        ).shadow
      = (render (.jarr [mkEntry "Old question" "Old answer"])
          "Old heading" newCycleState).shadow := by
  refine ⟨?_, rfl⟩
  decide

end FaqWidget
